import Mathlib

/-!
Verification of the `mlperf_prof` instrumentation façade
(`src/mlperf_prof/__init__.py`) against its natural-language specification.

Python strings are embedded as `List Char` where character-level operations
(`str.lower`, `str.startswith`) matter, and as `String` where they are opaque
component names.  Fallible constructors are embedded as `Except`-valued
functions; the module-level mutable state (`_Metrics`, `timemory.settings`)
is embedded as explicit state passing.
-/

namespace MlperfProf

/-- Python `s.lower()` on a string viewed as a list of characters. -/
def pyLower (s : List Char) : List Char := s.map Char.toLower

/-- The five component kinds a `timer` can wrap
(`WallClock`, `CpuClock`, `CudaEvent`, `UserClock`, `SysClock`). -/
inductive TimerObj where
  | wall
  | cpu
  | cudaEvent
  | user
  | system
deriving DecidableEq, Repr

/-- The prefix `'wall'` tested by `timer.__init__`. -/
def kWall : List Char := ['w', 'a', 'l', 'l']

/-- The prefix `'cpu'` tested by `timer.__init__`. -/
def kCpu : List Char := ['c', 'p', 'u']

/-- The prefix `'cuda_event'` tested by `timer.__init__`. -/
def kCudaEvent : List Char := ['c', 'u', 'd', 'a', '_', 'e', 'v', 'e', 'n', 't']

/-- The prefix `'user'` tested by `timer.__init__`. -/
def kUser : List Char := ['u', 's', 'e', 'r']

/-- The prefix `'system'` tested by `timer.__init__`. -/
def kSystem : List Char := ['s', 'y', 's', 't', 'e', 'm']

/-- The message of the `RuntimeError` raised by `timer.__init__`. -/
def invalidTypeMsg : List Char := ['i', 'n', 'v', 'a', 'l', 'i', 'd', ' ', 't', 'y', 'p', 'e']

/-- `timer.__init__(dtype)`: dispatch on `dtype.lower().startswith(...)`
(i.e. a prefix test on the lowercased kind string), tried in the order
wall, cpu, cuda_event, user, system; otherwise
`raise RuntimeError('invalid type')`. -/
def timerInit (dtype : List Char) : Except (List Char) TimerObj :=
  let d := pyLower dtype
  if kWall <+: d then .ok .wall
  else if kCpu <+: d then .ok .cpu
  else if kCudaEvent <+: d then .ok .cudaEvent
  else if kUser <+: d then .ok .user
  else if kSystem <+: d then .ok .system
  else .error invalidTypeMsg

/-- The condition under which `timer.__init__` succeeds: the lowercased kind
string starts with one of the five recognized prefixes. -/
def ValidTimerPrefix (dtype : List Char) : Prop :=
  kWall <+: pyLower dtype ∨ kCpu <+: pyLower dtype ∨ kCudaEvent <+: pyLower dtype
    ∨ kUser <+: pyLower dtype ∨ kSystem <+: pyLower dtype

instance (dtype : List Char) : Decidable (ValidTimerPrefix dtype) := by
  unfold ValidTimerPrefix; infer_instance

/-- The five kind strings named by the spec's Timer contract. -/
def specTimerKinds : List (List Char) := [kWall, kCpu, kCudaEvent, kUser, kSystem]

theorem timerInit_isOk_iff (d : List Char) :
    (timerInit d).isOk = true ↔ ValidTimerPrefix d := by
  by_cases h1 : kWall <+: pyLower d <;>
    by_cases h2 : kCpu <+: pyLower d <;>
      by_cases h3 : kCudaEvent <+: pyLower d <;>
        by_cases h4 : kUser <+: pyLower d <;>
          by_cases h5 : kSystem <+: pyLower d <;>
            simp [timerInit, ValidTimerPrefix, Except.isOk, Except.toBool,
              h1, h2, h3, h4, h5]

theorem timerInit_error_of_invalid (d : List Char)
    (h : ¬ ValidTimerPrefix d) :
    timerInit d = .error invalidTypeMsg := by
  unfold ValidTimerPrefix at h
  push_neg at h
  obtain ⟨h1, h2, h3, h4, h5⟩ := h
  simp [timerInit, h1, h2, h3, h4, h5]

theorem not_prefix_of_prefix {p q l : List Char}
    (hpq : ¬ p <+: q) (hqp : ¬ q <+: p) (hp : p <+: l) : ¬ q <+: l := by
  intro hq
  rcases List.prefix_or_prefix_of_prefix hp hq with h | h
  · exact hpq h
  · exact hqp h

theorem timerInit_wall (d : List Char) (h : kWall <+: pyLower d) :
    timerInit d = .ok .wall := by
  simp [timerInit, h]

theorem timerInit_cpu (d : List Char) (h : kCpu <+: pyLower d) :
    timerInit d = .ok .cpu := by
  have h1 := not_prefix_of_prefix (p := kCpu) (q := kWall) (by decide) (by decide) h
  simp [timerInit, h1, h]

theorem timerInit_cuda (d : List Char) (h : kCudaEvent <+: pyLower d) :
    timerInit d = .ok .cudaEvent := by
  have h1 := not_prefix_of_prefix (p := kCudaEvent) (q := kWall) (by decide) (by decide) h
  have h2 := not_prefix_of_prefix (p := kCudaEvent) (q := kCpu) (by decide) (by decide) h
  simp [timerInit, h1, h2, h]

theorem timerInit_user (d : List Char) (h : kUser <+: pyLower d) :
    timerInit d = .ok .user := by
  have h1 := not_prefix_of_prefix (p := kUser) (q := kWall) (by decide) (by decide) h
  have h2 := not_prefix_of_prefix (p := kUser) (q := kCpu) (by decide) (by decide) h
  have h3 := not_prefix_of_prefix (p := kUser) (q := kCudaEvent) (by decide) (by decide) h
  simp [timerInit, h1, h2, h3, h]

theorem timerInit_system (d : List Char) (h : kSystem <+: pyLower d) :
    timerInit d = .ok .system := by
  have h1 := not_prefix_of_prefix (p := kSystem) (q := kWall) (by decide) (by decide) h
  have h2 := not_prefix_of_prefix (p := kSystem) (q := kCpu) (by decide) (by decide) h
  have h3 := not_prefix_of_prefix (p := kSystem) (q := kCudaEvent) (by decide) (by decide) h
  have h4 := not_prefix_of_prefix (p := kSystem) (q := kUser) (by decide) (by decide) h
  simp [timerInit, h1, h2, h3, h4, h]

/-! ### Module-level metric state, `marker`, and `parse_args` -/

/-- The module-level default `_Metrics = ['wall_clock']`. -/
def initMetrics : List String := ["wall_clock"]

/-- `marker.__init__(components=[], **kwargs)` passes `_Metrics + components`
to the engine marker: the resolved component list of the constructed marker,
where `metrics` is the value of `_Metrics` at construction time. -/
def markerInit (metrics components : List String) : List String :=
  metrics ++ components

/-- The resolved options struct produced by `parser.parse_args()` for the
options that `parse_args` registers. -/
structure Args where
  disable_prof : Bool
  metrics : List String
  profile : Bool
  trace : Bool
  perf_output_dir : Option String
  perf_output_mode : List String
deriving Repr, DecidableEq

/-- The `timemory.settings` fields written by `parse_args`. -/
structure Settings where
  enabled : Bool
  global_components : String
  profiler_components : String
  output_path : Option String
  text_output : Bool
  json_output : Bool
  cout_output : Bool
  plot_output : Bool
  flamegraph_output : Bool
deriving Repr, DecidableEq

/-- Which object `parse_args` binds as the built-in `mlperf_prof.record`
decorator: `marker()`, `profile()` or `trace()`. -/
inductive ProfKind where
  | markerProf
  | fullProfile
  | lineTrace
deriving Repr, DecidableEq

/-- The module-level mutable state touched by `parse_args`:
`_Metrics`, `timemory.settings`, and the `builtins` record binding. -/
structure ModState where
  metrics : List String
  settings : Settings
  record : Option ProfKind
deriving Repr, DecidableEq

/-- Python `','.join(xs)`. -/
def joinComma (xs : List String) : String := String.intercalate "," xs

/-- `parse_args(parser)` after `args = parser.parse_args()`: sets
`timemory.settings.enabled = not args.disable_prof`; when profiling is not
disabled, reassigns `_Metrics = args.metrics`, pushes the metric and output
settings into `timemory.settings`, and installs the `mlperf_prof.record`
decorator; otherwise clears `_Metrics`. -/
def parse_args (st : ModState) (a : Args) : ModState :=
  let s0 := { st.settings with enabled := !a.disable_prof }
  if !a.disable_prof then
    let s1 := { s0 with
      global_components := joinComma a.metrics
      profiler_components := joinComma a.metrics
      output_path := if a.perf_output_dir.isSome then a.perf_output_dir else s0.output_path
      text_output := a.perf_output_mode.contains "text"
      json_output := a.perf_output_mode.contains "json"
      cout_output := a.perf_output_mode.contains "cout"
      plot_output := a.perf_output_mode.contains "plot"
      flamegraph_output := a.perf_output_mode.contains "flamegraph" }
    { metrics := a.metrics
      settings := s1
      record := some (if a.profile then .fullProfile
                      else if a.trace then .lineTrace
                      else .markerProf) }
  else
    { st with metrics := [], settings := s0 }

/-- An event in the life of the module: a `parse_args` call (which may
reassign `_Metrics`) or a `marker(...)` construction. -/
inductive Event where
  | parseArgsEv (a : Args)
  | newMarker (components : List String)

/-- The module state after one event. -/
def stepState (st : ModState) : Event → ModState
  | .parseArgsEv a => parse_args st a
  | .newMarker _ => st

/-- The resolved component lists of the markers constructed along an event
sequence, in construction order; each marker resolves `_Metrics` at its own
construction time. -/
def markerLog (st : ModState) : List Event → List (List String)
  | [] => []
  | .newMarker c :: evs => markerInit st.metrics c :: markerLog st evs
  | .parseArgsEv a :: evs => markerLog (parse_args st a) evs

/-! ### Module load and the import-failure fallback -/

/-- How a public name is bound after module load: to the engine-backed normal
variant, to an inert fallback, or (in the except branch) to a class that still
inherits from the engine. -/
inductive Impl where
  | engine
  | inert
  | engineBacked
deriving Repr, DecidableEq

/-- The bindings of the public entities of the module. -/
structure Bindings where
  get_results : Impl
  finalize : Impl
  parse_args : Impl
  marker : Impl
  profile : Impl
  trace : Impl
  timer : Impl
deriving Repr, DecidableEq

/-- Which imports of the `try` block succeed.  The `try` body runs them in
order: `import timemory`, `from timemory.component import ...`,
`import timemory.profiler`, `import timemory.line_profiler`, `import json`. -/
structure ImportEnv where
  timemoryOk : Bool
  componentOk : Bool
  profilerOk : Bool
  lineProfilerOk : Bool
  jsonOk : Bool
deriving Repr, DecidableEq

/-- The whole `try` block succeeds. -/
def tryBlockOk (e : ImportEnv) : Bool :=
  e.timemoryOk && e.componentOk && e.profilerOk && e.lineProfilerOk && e.jsonOk

/-- `timemory.profiler` is accessible inside the `except` handler: the failure
must have occurred after `import timemory.profiler` executed. -/
def profilerModuleLoaded (e : ImportEnv) : Bool :=
  e.timemoryOk && e.componentOk && e.profilerOk

/-- `timemory.line_profiler` is accessible inside the `except` handler. -/
def lineProfilerModuleLoaded (e : ImportEnv) : Bool :=
  profilerModuleLoaded e && e.lineProfilerOk

/-- All public names bound to the engine-backed variants (the `try` body). -/
def normalBindings : Bindings :=
  ⟨.engine, .engine, .engine, .engine, .engine, .engine, .engine⟩

/-- The bindings produced when the `except` handler runs to completion:
`get_results`, `finalize`, `parse_args`, `marker` and `timer` are inert
dummies, but the handler's `profile` and `trace` classes still inherit from
`timemory.profiler.profile` and `timemory.line_profiler.LineProfiler`. -/
def exceptBindings : Bindings :=
  ⟨.inert, .inert, .inert, .inert, .engineBacked, .engineBacked, .inert⟩

/-- Module load: run the `try` block; on failure run the `except` handler,
whose `class profile(timemory.profiler.profile)` and
`class trace(timemory.line_profiler.LineProfiler)` statements themselves raise
(`NameError`/`AttributeError`) when the needed engine modules were never
imported — in that case the module itself fails to load. -/
def loadModule (e : ImportEnv) : Except String Bindings :=
  if tryBlockOk e then .ok normalBindings
  else if profilerModuleLoaded e then
    if lineProfilerModuleLoaded e then .ok exceptBindings
    else .error "fallback trace class: timemory.line_profiler unavailable"
  else .error "fallback profile class: timemory.profiler unavailable"

/-! ### The inert fallback variants defined by the `except` handler -/

/-- Fallback `timer.__init__(dtype)`: stores `self._obj = None`, accepts any
kind string. -/
structure FallbackTimer where
  obj : Option Unit
deriving Repr, DecidableEq

/-- Fallback timer construction never fails and resolves no component. -/
def fallbackTimerInit (_dtype : List Char) : FallbackTimer := { obj := none }

/-- Fallback `timer.get()`: returns `0.0`. -/
def FallbackTimer.get (_t : FallbackTimer) : Int := 0

/-- Fallback `timer.laps()`: returns `0`. -/
def FallbackTimer.laps (_t : FallbackTimer) : Nat := 0

/-- The `function_wrapper` produced by fallback `marker.__call__`:
`_ret = func(*args, **kwargs); return _ret`.  Callables are embedded as
`Except`-valued functions, `.error` standing for a raised exception, which the
wrapper propagates (there is no handler around the call). -/
def fallbackMarkerCall {α β E : Type} (f : α → Except E β) : α → Except E β :=
  fun a => do
    let r ← f a
    pure r

/-- The `(exc_type, exc_value, exc_traceback)` triple passed to `__exit__`. -/
structure ExcInfo where
  ty : Option String
  val : Option String
  tb : Option String
deriving Repr, DecidableEq

/-- Fallback `marker.__exit__`: prints the traceback when all three exception
arguments are non-`None`; falls off the end, returning `None` — i.e. it never
suppresses the exception.  Result: (suppress, printed). -/
def fallbackMarkerExit (e : ExcInfo) : Bool × Bool :=
  (false, e.ty.isSome && e.val.isSome && e.tb.isSome)

/-- Modelled from the spec: `timemory.util.marker.__exit__`, the external
engine's scoped exit, is not part of this repository.  Section 4.3: "exit
stops all components, and if failure is non-null, logs/reprints it (does not
swallow it) then returns" — returning without a value yields `None`, so the
exception is never suppressed.  Result: (suppress, logged). -/
def timemoryMarkerExit (e : ExcInfo) : Bool × Bool := (false, e.ty.isSome)

/-- Normal-mode `marker.__exit__`: returns
`super(marker, self).__exit__(exc_type, exc_value, exc_traceback)`. -/
def markerExit (e : ExcInfo) : Bool × Bool := timemoryMarkerExit e

/-- Lifecycle state of one resolved component of a per-call measurement
bundle. -/
inductive CompState where
  | idle
  | running
  | stopped
deriving Repr, DecidableEq

/-- Modelled from the spec: the decorator protocol of the external engine
marker (`timemory.util.marker.__call__`, not part of this repository),
section 4.3: invoking the wrapped callable (1) constructs a fresh per-call
bundle resolving the marker's components, (2) starts all of them, (3) invokes
the callable capturing any raised failure, (4) stops all components regardless
of whether the callable raised, (5) re-raises the original failure unchanged.
Result: the callable's own outcome (re-raised after release), paired with the
final lifecycle state of every component of the bundle. -/
def timemoryMarkerCall {α β E : Type} (comps : List String)
    (f : α → Except E β) (a : α) :
    Except E β × List (String × CompState) :=
  let started := comps.map (fun c => (c, CompState.running))
  let r := f a
  let released := started.map (fun p => (p.1, CompState.stopped))
  (r, released)

/-- Normal-mode `marker.__call__(func)`: returns
`super(marker, self).__call__(func)` — the engine marker's decorator. -/
def markerCall {α β E : Type} (comps : List String)
    (f : α → Except E β) (a : α) :
    Except E β × List (String × CompState) :=
  timemoryMarkerCall comps f a

/-- Modelled from the spec: `timemory.profiler.profile.__exit__`, the external
engine profiler's scoped exit (not part of this repository; the source's
`profile.__exit__` override is commented out, so the engine exit is inherited
unchanged).  Section 4.4: "On exit, the hook is uninstalled unconditionally
(including on failure) before control returns to the caller" — the exit
returns without a value (`None`), so the failure is never suppressed and
propagation stays with the caller.  Result: (suppress, hook still installed). -/
def timemoryProfileExit (_e : ExcInfo) : Bool × Bool := (false, false)

/-- Modelled from the spec: `timemory.line_profiler.LineProfiler.__exit__`,
the external engine tracer's scoped exit (not part of this repository),
section 4.5: "Same contract as Profiler but the hook fires per executed
source line" — the hook is uninstalled unconditionally and the exit returns
`None`, suppressing nothing.  Result: (suppress, hook still installed). -/
def timemoryTraceExit (_e : ExcInfo) : Bool × Bool := (false, false)

/-- Normal-mode `profile.__exit__`: inherited from the engine profiler (the
override at the source is commented out). -/
def profileExit (e : ExcInfo) : Bool × Bool := timemoryProfileExit e

/-- Normal-mode `trace.__exit__`: returns
`super(trace, self).__exit__(exc_type, exc_value, exc_traceback)`. -/
def traceExit (e : ExcInfo) : Bool × Bool := timemoryTraceExit e

/-- The argument tuple of a `marker(...)` construction call: the optional
`components` argument plus the names of any extra keyword arguments. -/
structure MarkerCtorArgs where
  components : Option (List String)
  kwargs : List String
deriving Repr, DecidableEq

/-- Normal-mode `marker.__init__(self, components=[], **kwargs)`: every
argument combination is accepted (`components` defaults to `[]`, `**kwargs`
absorbs the rest); yields the component list handed to the engine marker. -/
def markerNew (metrics : List String) (a : MarkerCtorArgs) :
    Except String (List String) :=
  .ok (markerInit metrics (a.components.getD []))

/-- Fallback `marker.__init__(self)`: takes no arguments, so any `components`
argument or any keyword argument raises `TypeError`. -/
def fallbackMarkerNew (a : MarkerCtorArgs) : Except String Unit :=
  match a with
  | ⟨none, []⟩ => .ok ()
  | _ => .error "TypeError"

/-! ### Claims -/

/-- Claim C1 (code_bug evaluation): when the engine import fails at
`import timemory` the module does NOT load with inert fallbacks — the except
handler itself fails, because its fallback `profile` class inherits from the
unavailable `timemory.profiler.profile`; and in the one import-failure
scenario in which the handler can complete (everything but `json` imported),
the resulting `profile` and `trace` bindings are engine-backed, not inert. -/
theorem C1_fallback_load_fails :
    (loadModule ⟨false, false, false, false, true⟩).isOk = false ∧
    loadModule ⟨true, true, true, true, false⟩ = .ok exceptBindings ∧
    exceptBindings.profile ≠ .inert ∧ exceptBindings.trace ≠ .inert := by
  refine ⟨rfl, rfl, ?_, ?_⟩ <;> decide

/-- Claim C2 counterexample: for the duplicate-free component list
`['cpu_clock']`, the constructed marker's component list is
`_Metrics + ['cpu_clock'] = ['wall_clock', 'cpu_clock']`, not `['cpu_clock']`. -/
theorem C2_counterexample :
    (["cpu_clock"] : List String).Nodup ∧
      markerInit initMetrics ["cpu_clock"] ≠ ["cpu_clock"] := by
  refine ⟨by decide, ?_⟩
  simp [markerInit, initMetrics]

/-- Claim C2 (amended): constructing a `marker` with component list `C` yields
the component list `_Metrics ++ C` — under the default `_Metrics =
['wall_clock']` that is `'wall_clock' :: C` — in insertion order; the result
is duplicate-free iff `C` is duplicate-free and does not itself contain
`'wall_clock'`; it equals `C` exactly in the degenerate case `_Metrics = []`. -/
theorem C2_marker_components (C : List String) :
    markerInit initMetrics C = "wall_clock" :: C ∧
    ((markerInit initMetrics C).Nodup ↔ ("wall_clock" ∉ C ∧ C.Nodup)) ∧
    markerInit [] C = C := by
  refine ⟨rfl, ?_, rfl⟩
  simp [markerInit, initMetrics]

/-- Claim C3 counterexample: the kind string `'wallaby'` is not one of the
five kind strings of the spec's Timer contract, yet `timer('wallaby')`
constructs successfully (prefix dispatch accepts it as a wall-clock timer). -/
theorem C3_counterexample :
    (timerInit ['w', 'a', 'l', 'l', 'a', 'b', 'y']).isOk = true ∧
    ['w', 'a', 'l', 'l', 'a', 'b', 'y'] ∉ specTimerKinds := by decide

/-- Claim C3 (amended): `timer(kind)` construction succeeds exactly when the
lowercased kind string STARTS WITH one of wall, cpu, cuda_event, user, system
(so each of the five exact kind strings is accepted, but so is any extension
of them); for every kind string outside this prefix condition, construction
fails with `RuntimeError('invalid type')` (the spec's `InvalidTimerKind`) and
no timer object is produced. -/
theorem C3_timer_kind_validity (d : List Char) :
    ((ValidTimerPrefix d ∧ (timerInit d).isOk = true) ∨
      (¬ ValidTimerPrefix d ∧ timerInit d = .error invalidTypeMsg)) ∧
    specTimerKinds.all (fun k => (timerInit k).isOk) = true := by
  refine ⟨?_, by decide⟩
  by_cases h : ValidTimerPrefix d
  · exact .inl ⟨h, (timerInit_isOk_iff d).mpr h⟩
  · exact .inr ⟨h, timerInit_error_of_invalid d h⟩

/-- Claim C4: in fallback mode, `timer('wall').get()` returns 0, `laps()`
returns 0 for a timer of any kind, and applying the fallback `marker` as a
decorator to any callable returns exactly the callable's own result on every
argument (raised exceptions included — the wrapper adds nothing). -/
theorem C4_fallback_inert {α β E : Type} (d : List Char)
    (f : α → Except E β) (a : α) :
    (fallbackTimerInit kWall).get = 0 ∧
    (fallbackTimerInit d).laps = 0 ∧
    fallbackMarkerCall f a = f a := by
  refine ⟨rfl, rfl, ?_⟩
  unfold fallbackMarkerCall
  cases f a <;> rfl

/-- Claim C5 (code_bug evaluation): `marker(components=['cpu_clock'])` is a
combination the normal-mode constructor accepts, but the fallback
`marker.__init__` takes no arguments at all and raises `TypeError` on it, so
fallback Marker construction is not failure-free on normal-mode argument
combinations. -/
theorem C5_fallback_ctor_mismatch :
    (markerNew initMetrics ⟨some ["cpu_clock"], []⟩).isOk = true ∧
    (fallbackMarkerNew ⟨some ["cpu_clock"], []⟩).isOk = false :=
  ⟨rfl, rfl⟩

/-- Claim C6: an exception raised inside a wrapped callable or scoped region
is never swallowed by Marker, Profiler, or Tracer.  Scoped-region exits: the
normal-mode `marker.__exit__`, the fallback `marker.__exit__`, the
normal-mode `profile.__exit__` and the normal-mode `trace.__exit__` (the engine
sides modelled from the spec) all return a non-suppressing value for every
exception triple, so propagation stays with the caller.  Decorator release
paths: the normal-mode decorator (the engine protocol, modelled from the
spec) re-raises the original exception unchanged after its release step, with
every component of the per-call bundle observed stopped afterwards, and the
fallback decorator wrapper propagates the original raised exception
unchanged. -/
theorem C6_no_swallow {α β E : Type} (x : ExcInfo) (comps : List String)
    (f : α → Except E β) (a : α) (e : E) (h : f a = .error e) :
    (markerExit x).1 = false ∧
    (fallbackMarkerExit x).1 = false ∧
    (profileExit x).1 = false ∧
    (traceExit x).1 = false ∧
    (markerCall comps f a).1 = .error e ∧
    ((markerCall comps f a).2.all (fun p => p.2 == CompState.stopped)) = true ∧
    fallbackMarkerCall f a = .error e := by
  refine ⟨rfl, rfl, rfl, rfl, ?_, ?_, ?_⟩
  · simp [markerCall, timemoryMarkerCall, h]
  · simp [markerCall, timemoryMarkerCall, List.all_eq_true]
  · unfold fallbackMarkerCall
    simp [h]

/-- Witness for C6 at a concrete exception triple, component list and raising
callable. -/
theorem C6_no_swallow_witness :
    (markerExit ⟨some "E", some "m", some "t"⟩).1 = false ∧
    (fallbackMarkerExit ⟨some "E", some "m", some "t"⟩).1 = false ∧
    (profileExit ⟨some "E", some "m", some "t"⟩).1 = false ∧
    (traceExit ⟨some "E", some "m", some "t"⟩).1 = false ∧
    (markerCall ["wall_clock"]
      (fun _ : Unit => (.error "boom" : Except String Nat)) ()).1
        = .error "boom" ∧
    ((markerCall ["wall_clock"]
      (fun _ : Unit => (.error "boom" : Except String Nat)) ()).2.all
        (fun p => p.2 == CompState.stopped)) = true ∧
    fallbackMarkerCall (fun _ : Unit => (.error "boom" : Except String Nat)) ()
      = .error "boom" :=
  C6_no_swallow ⟨some "E", some "m", some "t"⟩ ["wall_clock"]
    (fun _ => (.error "boom" : Except String Nat)) () "boom" rfl

/-- Claim C7: after `parse_args` runs with profiling enabled and metrics
`['wall_clock', 'cpu_clock']`, a marker constructed with an empty component
list resolves exactly the components `['wall_clock', 'cpu_clock']` (the new
global default is pulled in), whatever the prior module state and the other
options. -/
theorem C7_configure_then_marker (st : ModState) (p t : Bool)
    (o : Option String) (m : List String) :
    ((parse_args st ⟨false, ["wall_clock", "cpu_clock"], p, t, o, m⟩).settings.enabled
        = true) ∧
    markerInit (parse_args st ⟨false, ["wall_clock", "cpu_clock"], p, t, o, m⟩).metrics []
      = ["wall_clock", "cpu_clock"] := by
  constructor <;> simp [parse_args, markerInit]

/-- Claim C8: a marker resolves `_Metrics` once, at construction; appending
further events (in particular later `parse_args` calls that reassign the
global metrics list) to an event sequence leaves the component lists of all
previously constructed markers unchanged — the old marker log is a prefix of
the extended one. -/
theorem C8_snapshot_isolation (st : ModState) (evs more : List Event) :
    markerLog st evs <+: markerLog st (evs ++ more) := by
  induction evs generalizing st with
  | nil => exact List.nil_prefix
  | cons e evs ih =>
    cases e with
    | parseArgsEv a => simpa [markerLog] using ih (parse_args st a)
    | newMarker c =>
      simpa [markerLog, List.cons_prefix_cons] using ih st

/-- Claim C10: timer kind dispatch is by case-insensitive prefix match tried
in the order wall, cpu, cuda_event, user, system: any kind string whose
lowercase form starts with one of the five prefixes constructs the
corresponding timer, and a string matching none of them — including the bare
prefix `'cuda'` — fails construction. -/
theorem C10_timer_prefix_dispatch (d : List Char) :
    (kWall <+: pyLower d → timerInit d = .ok .wall) ∧
    (kCpu <+: pyLower d → timerInit d = .ok .cpu) ∧
    (kCudaEvent <+: pyLower d → timerInit d = .ok .cudaEvent) ∧
    (kUser <+: pyLower d → timerInit d = .ok .user) ∧
    (kSystem <+: pyLower d → timerInit d = .ok .system) ∧
    (¬ ValidTimerPrefix d → (timerInit d).isOk = false) ∧
    timerInit ['c', 'u', 'd', 'a'] = .error invalidTypeMsg := by
  refine ⟨timerInit_wall d, timerInit_cpu d, timerInit_cuda d,
    timerInit_user d, timerInit_system d, ?_,
    timerInit_error_of_invalid ['c', 'u', 'd', 'a'] (by decide)⟩
  intro h
  rw [timerInit_error_of_invalid d h]
  rfl

/-- Witness for C10: one concrete kind string per dispatch branch, plus a
rejected string. -/
theorem C10_timer_prefix_dispatch_witness :
    timerInit "WALL_TIME".toList = .ok .wall ∧
    timerInit "CpuTime".toList = .ok .cpu ∧
    timerInit "cuda_events".toList = .ok .cudaEvent ∧
    timerInit "userClock".toList = .ok .user ∧
    timerInit "SYSTEM".toList = .ok .system ∧
    (timerInit "gpu".toList).isOk = false :=
  ⟨(C10_timer_prefix_dispatch _).1 (by decide),
    (C10_timer_prefix_dispatch _).2.1 (by decide),
    (C10_timer_prefix_dispatch _).2.2.1 (by decide),
    (C10_timer_prefix_dispatch _).2.2.2.1 (by decide),
    (C10_timer_prefix_dispatch _).2.2.2.2.1 (by decide),
    (C10_timer_prefix_dispatch _).2.2.2.2.2.1 (by decide)⟩

end MlperfProf
